import Mathlib

/-!
Verification of the token acquisition and lifecycle layer of the ts-api
repository (src/ts/auth.py), as a shallow embedding: pure data flow is
translated to Lean functions, the side effects of the manual OAuth2 flow
(prints, browser open, token-endpoint POST, token-file write) are recorded
as an explicit effect trace, error exits and raised exceptions become an
Outcome type, and the JSON file store is modelled down to the character
level of json.dump(..., indent=4) / json.loads.
-/

set_option maxRecDepth 8000

namespace TS

/-- JSON values occurring in a token mapping: the source annotates the token
as a Python mapping from strings to strings or integers
(dict[str, Union[str, int]]). -/
inductive JsonVal where
  | str (s : String)
  | int (n : Int)
deriving DecidableEq, Repr

/-- A token mapping: an association list of keys to JSON values in insertion
order, modelling a Python dict (whose keys are unique). -/
abbrev TokenMap := List (String × JsonVal)

/-- dict.get k: the first binding of the key, if any. -/
def tkGet (m : TokenMap) (k : String) : Option JsonVal :=
  match m with
  | [] => none
  | (k2, v) :: r => if k2 = k then some v else tkGet r k

/-! ## The JSON serializer of json.dump(t, f, indent=4) -/

/-- Lowercase hex digit for n < 16 (Python json emits lowercase hex in
its \uXXXX escapes). -/
def hexDig (n : Nat) : Char :=
  if n < 10 then Char.ofNat (48 + n) else Char.ofNat (87 + n)

/-- The four hex digits of n < 0x10000, most significant first. -/
def hex4 (n : Nat) : List Char :=
  [hexDig (n / 4096 % 16), hexDig (n / 256 % 16), hexDig (n / 16 % 16), hexDig (n % 16)]

/-- json.dump escaping of one character (ensure_ascii=True, the default):
quote and backslash get two-character escapes, the five C0 controls with
short names get those, every other character below 0x20 or above 0x7e
becomes a \uXXXX escape (a surrogate pair above 0xffff), and the remaining
printable ASCII characters stand for themselves. -/
def escChar (c : Char) : List Char :=
  let n := c.toNat
  if n = 34 then ['\\', '"']
  else if n = 92 then ['\\', '\\']
  else if n = 8 then ['\\', 'b']
  else if n = 12 then ['\\', 'f']
  else if n = 10 then ['\\', 'n']
  else if n = 13 then ['\\', 'r']
  else if n = 9 then ['\\', 't']
  else if n < 32 ∨ 126 < n then
    if n ≤ 65535 then '\\' :: 'u' :: hex4 n
    else ('\\' :: 'u' :: hex4 (55296 + (n - 65536) / 1024)) ++
         ('\\' :: 'u' :: hex4 (56320 + (n - 65536) % 1024))
  else [c]

/-- A JSON string literal: quote, escaped characters, quote. -/
def serStr (s : List Char) : List Char :=
  '"' :: (s.map escChar).flatten ++ ['"']

/-- Decimal digits of a natural number, most significant first; fuel-based
so that it reduces by computation (fuel n + 1 always suffices). -/
def natDigitsAux : Nat → Nat → List Char → List Char
  | 0, _, acc => acc
  | fuel + 1, n, acc =>
    let acc2 := Char.ofNat (48 + n % 10) :: acc
    if n < 10 then acc2 else natDigitsAux fuel (n / 10) acc2

def natDigits (n : Nat) : List Char := natDigitsAux (n + 1) n []

/-- Python str() of an integer: decimal digits, with a leading minus sign
when negative. -/
def intChars (n : Int) : List Char :=
  if n < 0 then '-' :: natDigits n.natAbs else natDigits n.natAbs

def serVal : JsonVal → List Char
  | .str s => serStr s.data
  | .int n => intChars n

/-- One member line of the object body: four spaces of indent, the quoted
key, a colon and a space, the value (the item and key separators json.dump
uses when indent is given). -/
def serMember (kv : String × JsonVal) : List Char :=
  ' ' :: ' ' :: ' ' :: ' ' :: (serStr kv.1.data ++ ':' :: ' ' :: serVal kv.2)

/-- The members after the first, each preceded by a comma and a newline,
then the closing newline and brace. -/
def dumpsRest : TokenMap → List Char
  | [] => ['\n', '}']
  | kv :: r => ',' :: '\n' :: (serMember kv ++ dumpsRest r)

/-- json.dumps(m, indent=4) as a character list: an empty mapping prints as
the two braces; otherwise one member per line. -/
def dumps : TokenMap → List Char
  | [] => ['{', '}']
  | kv :: r => '{' :: '\n' :: (serMember kv ++ dumpsRest r)

/-! ## The JSON parser of json.loads, for the fragment the store emits
(flat objects whose values are strings and integers). Python json.loads
also accepts lone surrogate escapes, floats and the literals true, false
and null; those never occur in a token document and are rejected here. -/

def isJsonWs (c : Char) : Bool :=
  c.toNat == 32 || c.toNat == 9 || c.toNat == 10 || c.toNat == 13

def skipWs : List Char → List Char
  | [] => []
  | c :: r => if isJsonWs c then skipWs r else c :: r

/-- Value of a hex digit, if the character is one (either case). -/
def hexVal (c : Char) : Option Nat :=
  let n := c.toNat
  if 48 ≤ n ∧ n ≤ 57 then some (n - 48)
  else if 97 ≤ n ∧ n ≤ 102 then some (n - 87)
  else if 65 ≤ n ∧ n ≤ 70 then some (n - 55)
  else none

/-- One step of JSON string-literal scanning: on the closing quote returns
(none, rest); on a literal character or a complete escape sequence returns
(some decoded-character, rest); on malformed input fails. -/
def strTok : List Char → Option (Option Char × List Char)
  | [] => none
  | c :: r =>
    if c.toNat = 34 then some (none, r)
    else if c.toNat = 92 then
      match r with
      | [] => none
      | e :: r2 =>
        if e.toNat = 34 then some (some '"', r2)
        else if e.toNat = 92 then some (some '\\', r2)
        else if e.toNat = 47 then some (some '/', r2)
        else if e.toNat = 98 then some (some (Char.ofNat 8), r2)
        else if e.toNat = 102 then some (some (Char.ofNat 12), r2)
        else if e.toNat = 110 then some (some '\n', r2)
        else if e.toNat = 114 then some (some (Char.ofNat 13), r2)
        else if e.toNat = 116 then some (some '\t', r2)
        else if e.toNat = 117 then
          match r2 with
          | a :: b :: c2 :: d :: r3 =>
            match hexVal a, hexVal b, hexVal c2, hexVal d with
            | some ha, some hb, some hc, some hd =>
              let n := ha * 4096 + hb * 256 + hc * 16 + hd
              if 55296 ≤ n ∧ n < 56320 then
                match r3 with
                | bs :: u2 :: a2 :: b2 :: c3 :: d2 :: r4 =>
                  if bs.toNat = 92 ∧ u2.toNat = 117 then
                    match hexVal a2, hexVal b2, hexVal c3, hexVal d2 with
                    | some ha2, some hb2, some hc2, some hd2 =>
                      let n2 := ha2 * 4096 + hb2 * 256 + hc2 * 16 + hd2
                      if 56320 ≤ n2 ∧ n2 < 57344 then
                        some (some (Char.ofNat (65536 + (n - 55296) * 1024 + (n2 - 56320))), r4)
                      else none
                    | _, _, _, _ => none
                  else none
                | _ => none
              else if 56320 ≤ n ∧ n < 57344 then none
              else some (some (Char.ofNat n), r3)
            | _, _, _, _ => none
          | _ => none
        else none
    else some (some c, r)

/-- Body of a JSON string literal after the opening quote, with escape
processing; returns the decoded characters and the input after the closing
quote. Fuel-based: one unit of fuel per decoded character suffices, since
every step consumes at least one input character. -/
def parseStrBody : Nat → List Char → Option (List Char × List Char)
  | 0, _ => none
  | fuel + 1, l =>
    match strTok l with
    | none => none
    | some (none, r) => some ([], r)
    | some (some c, r) => (parseStrBody fuel r).map (fun p => (c :: p.1, p.2))

def parseJString (l : List Char) : Option (List Char × List Char) :=
  match l with
  | c :: r => if c.toNat = 34 then parseStrBody (r.length + 1) r else none
  | [] => none

def isDigit (c : Char) : Bool := 48 ≤ c.toNat && c.toNat ≤ 57

def takeDigits : List Char → List Char × List Char
  | [] => ([], [])
  | c :: r =>
    if isDigit c then
      let p := takeDigits r
      (c :: p.1, p.2)
    else ([], c :: r)

def digitsVal (l : List Char) : Nat :=
  l.foldl (fun a c => a * 10 + (c.toNat - 48)) 0

def parseNat (l : List Char) : Option (Nat × List Char) :=
  match takeDigits l with
  | ([], _) => none
  | (ds, r) => some (digitsVal ds, r)

/-- One JSON value of the emitted fragment: a string literal or an integer. -/
def parseValue (l : List Char) : Option (JsonVal × List Char) :=
  match skipWs l with
  | [] => none
  | c :: r =>
    if c.toNat = 34 then (parseStrBody (r.length + 1) r).map (fun p => (.str (String.mk p.1), p.2))
    else if c.toNat = 45 then (parseNat r).map (fun p => (.int (-(p.1 : Int)), p.2))
    else if isDigit c then (parseNat (c :: r)).map (fun p => (.int (p.1 : Int), p.2))
    else none

/-- The members of a nonempty object, from just after the opening brace (or
after a separating comma) through the closing brace. Fuel-based: one unit of
fuel per member suffices. -/
def parseMembers : Nat → List Char → Option (TokenMap × List Char)
  | 0, _ => none
  | fuel + 1, l =>
    match parseJString (skipWs l) with
    | none => none
    | some (k, r1) =>
      match skipWs r1 with
      | c :: r2 =>
        if c.toNat = 58 then
          match parseValue r2 with
          | none => none
          | some (v, r3) =>
            match skipWs r3 with
            | c2 :: r4 =>
              if c2.toNat = 44 then
                (parseMembers fuel r4).map (fun p => ((String.mk k, v) :: p.1, p.2))
              else if c2.toNat = 125 then some ([(String.mk k, v)], r4)
              else none
            | [] => none
        else none
      | [] => none

/-- json.loads over the emitted fragment: one flat object, possibly
surrounded by whitespace, with nothing after it. -/
def loads (content : List Char) : Option TokenMap :=
  match skipWs content with
  | c :: r =>
    if c.toNat = 123 then
      match skipWs r with
      | c2 :: r2 =>
        if c2.toNat = 125 then
          match skipWs r2 with
          | [] => some []
          | _ :: _ => none
        else
          match parseMembers (r.length + 1) r with
          | some (m, rest) => if skipWs rest = [] then some m else none
          | none => none
      | [] => none
    else none
  | [] => none

/-! ## The token store -/

/-- File contents by path; none means the file does not exist
(os.path.isfile is false and open() raises FileNotFoundError). -/
def FsState := String → Option (List Char)

inductive PyErr where
  | fileNotFound (path : String)
  | jsonDecodeError
  | valueError (msg : String)
deriving DecidableEq, Repr

/-- update_token, the closure returned by __update_token(token_path):
json.dump(t, f, indent=4) over open(token_path, "w") — overwrites the file
at token_path with the serialized mapping. -/
def update_token (token_path : String) (t : TokenMap) (fs : FsState) : FsState :=
  fun p => if p = token_path then some (dumps t) else fs p

/-- load_token, the closure returned by __token_loader(token_path):
open(token_path, "rb"), read, json.loads — FileNotFoundError when the file
is absent, JSONDecodeError when its contents do not parse. -/
def load_token (token_path : String) (fs : FsState) : Except PyErr TokenMap :=
  match fs token_path with
  | none => .error (.fileNotFound token_path)
  | some content =>
    match loads content with
    | some m => .ok m
    | none => .error .jsonDecodeError

/-- A token read function: Python () -> dict, which may touch the file
system and may raise. -/
def ReadFn := FsState → Except PyErr TokenMap

/-- A token write function: Python (dict) -> None, acting on the file
system. -/
def WriteFn := TokenMap → FsState → FsState

/-! ## The client handle and the factory functions -/

/-- Modelled from the spec: the ClientHandle of §2 and §4.4. The
repository's client classes (ts/client/synchronous.py and
ts/client/asynchronous.py) are not among the available sources, so the
handle is modelled as a record of the keyword arguments the factory
functions in ts/auth.py pass to the constructor; a parameter a call site
does not supply is recorded as none. -/
structure Client where
  client_id : String
  client_secret : String
  paper_trade : Bool
  isAsync : Bool
  _access_token : Option JsonVal
  _refresh_token : Option JsonVal
  _access_token_expires_in : Option JsonVal
  _access_token_expires_at : Option JsonVal
  _token_read_func : Option ReadFn
  _token_update_func : Option WriteFn

/-- The observable side effects of the factory functions. -/
inductive Effect where
  | print (msg : String)
  | openBrowser (url : String)
  | postToken (payload : List (String × String))
  | writeToken (path : String) (t : TokenMap)
deriving DecidableEq, Repr

/-- How a factory call ends: returning a client, exiting the process
(exit()), or raising an exception. -/
inductive Outcome where
  | ok (c : Client)
  | exited
  | raised (e : PyErr)

def Outcome.isExited : Outcome → Bool
  | .exited => true
  | _ => false

def Outcome.isOk : Outcome → Bool
  | .ok _ => true
  | _ => false

def Outcome.client? : Outcome → Option Client
  | .ok c => some c
  | _ => none

def Effect.isPost : Effect → Bool
  | .postToken _ => true
  | _ => false

def Effect.isWrite : Effect → Bool
  | .writeToken _ _ => true
  | _ => false

/-- Python str.strip() whitespace, modelled for the ASCII whitespace
characters. -/
def isPySpace (c : Char) : Bool :=
  c.toNat == 32 || c.toNat == 9 || c.toNat == 10 || c.toNat == 13 ||
  c.toNat == 11 || c.toNat == 12

/-- Python s.strip(): remove leading and trailing whitespace. -/
def pyStrip (s : String) : String :=
  String.mk (((s.data.dropWhile isPySpace).reverse.dropWhile isPySpace).reverse)

/-- All characters are decimal digits (and there is at least one). -/
def digitsOnly (l : List Char) : Option Nat :=
  match l with
  | [] => none
  | _ :: _ => if l.all isDigit then some (digitsVal l) else none

/-- Python int(x) for x a str or int: an int passes through; a string is
stripped, an optional sign is read, and the rest must be decimal digits,
else int() raises ValueError (none here). -/
def pyToInt (v : JsonVal) : Option Int :=
  match v with
  | .int n => some n
  | .str s =>
    match (pyStrip s).data with
    | [] => none
    | c :: r =>
      if c.toNat = 45 then (digitsOnly r).map (fun n => -(n : Int))
      else if c.toNat = 43 then (digitsOnly r).map (fun n => (n : Int))
      else (digitsOnly (c :: r)).map (fun n => (n : Int))

/-- Python str() applied to the result of dict.get(k): None prints as
"None", an int as its decimal form, a str as itself. -/
def pyStrOfGet (v : Option JsonVal) : String :=
  match v with
  | none => "None"
  | some (.str s) => s
  | some (.int n) => toString n

/-- query_params.get(k, []) over the result of parse_qs: the list of values
for the key, or the empty list when the key is absent (parse_qs never maps
a key to an empty list). -/
def qget (qp : List (String × List String)) (k : String) : List String :=
  match qp with
  | [] => []
  | (k2, vs) :: r => if k2 = k then vs else qget r k

def default_autho_scope : String :=
  "openid offline_access profile MarketData ReadAccount Trade Crypto Matrix OptionSpreads"

def authUrl (client_key redirect_uri state autho_scope : String) : String :=
  "https://signin.tradestation.com/authorize?response_type=code&client_id=" ++ client_key ++
  "&audience=https://api.tradestation.com&redirect_uri=" ++ redirect_uri ++
  "&state=" ++ state ++ "&scope=" ++ autho_scope

def msgInstructions : String :=
  "Please go to this URL to authorize the application. After logging in,the page will say \"Unable to connect.\" However the URL will change and you need to copy the URL of the page. :"

def msgStateMismatch : String :=
  "State of URL does not match. Possible cross-site request forgery attack."

def msgDeniedPre : String := "There was a problem with the authorization: "

def msgUnknown : String :=
  "Unable to get authorization from url entered. Unknown error, likely a bad URL. Make sure to copy URL after logging in regardless of what the webpage might say."

/-- The ambient nondeterminism of client_from_manual_flow: the generated
state (secrets.token_hex(16)), the parse_qs decomposition of the query
string of the redirect URL the user pastes, and the token endpoint's
response — its HTTP status and its JSON body, per the source's annotation
dict[str, Union[str, int]]. -/
structure ManualEnv where
  state : String
  query_params : List (String × List String)
  resp_status : Nat
  resp_body : TokenMap

def exchangePayload (client_key client_secret code redirect_uri : String) :
    List (String × String) :=
  [("grant_type", "authorization_code"), ("client_id", client_key),
   ("client_secret", client_secret), ("code", code), ("redirect_uri", redirect_uri)]

/-- The except branch of the callback parsing. It is reached on a missing
state parameter or a missing code (IndexError), and also on a mismatched
state: the exit() of the mismatch branch raises SystemExit inside the try,
and the bare except catches it. It reports either the error_description or
the generic message, then exits. -/
def exceptBranch (qp : List (String × List String)) (eff : List Effect) :
    List Effect × Outcome :=
  let eds := qget qp "error_description"
  if eds.isEmpty then (eff ++ [.print msgUnknown], .exited)
  else (eff ++ [.print (msgDeniedPre ++ pyStrip (eds.headD ""))], .exited)

/-- client_from_manual_flow: the effect trace (prints, browser open, token
POST, token-file write) and the outcome. The URL print and browser open are
unconditional; then the try/except over the parsed query runs; when a code
was extracted, the exchange POST runs, a response with status 400 raises
ValueError, and any other status has its body written to ts_state.json and
the client built from it (str() on the two token strings, int() — which can
itself raise ValueError — on the two expiry numbers). -/
def client_from_manual_flow (client_key client_secret redirect_uri autho_scope : String)
    (paper_trade asyncio : Bool) (env : ManualEnv) : List Effect × Outcome :=
  let url := authUrl client_key redirect_uri env.state autho_scope
  let pre : List Effect := [.print msgInstructions, .print url, .openBrowser url]
  let svs := qget env.query_params "state"
  if svs.isEmpty then exceptBranch env.query_params pre
  else
    if env.state = pyStrip (svs.headD "") then
      let cvs := qget env.query_params "code"
      if cvs.isEmpty then exceptBranch env.query_params pre
      else
        let code := pyStrip (cvs.headD "")
        let eff := pre ++
          [.print "Success", .postToken (exchangePayload client_key client_secret code redirect_uri)]
        if env.resp_status = 400 then
          (eff ++ [.print ("Failed to authorize token. " ++ toString env.resp_status)],
           .raised (.valueError ("Failed to authorize token. " ++ toString env.resp_status)))
        else
          let token := env.resp_body
          let eff2 := eff ++ [.writeToken "ts_state.json" token]
          match pyToInt ((tkGet token "access_token_expires_in").getD (.int 0)),
                pyToInt ((tkGet token "access_token_expires_at").getD (.int 0)) with
          | some ein, some eat =>
            (eff2, .ok {
              client_id := client_key, client_secret := client_secret,
              paper_trade := paper_trade, isAsync := asyncio,
              _access_token := some (.str (pyStrOfGet (tkGet token "access_token"))),
              _refresh_token := some (.str (pyStrOfGet (tkGet token "refresh_token"))),
              _access_token_expires_in := some (.int ein),
              _access_token_expires_at := some (.int eat),
              _token_read_func := none, _token_update_func := none })
          | _, _ =>
            (eff2, .raised (.valueError "invalid literal for int() with base 10"))
    else
      exceptBranch env.query_params (pre ++ [.print msgStateMismatch])

/-- client_from_access_functions: calls token_read_func once; on success it
builds the client from token.get with the source's defaults and stores both
access functions on it; a read failure propagates to the caller. -/
def client_from_access_functions (client_key client_secret : String)
    (token_read_func : ReadFn) (token_update_func : WriteFn)
    (paper_trade asyncio : Bool) (fs : FsState) : Except PyErr Client :=
  match token_read_func fs with
  | .error e => .error e
  | .ok token => .ok {
      client_id := client_key, client_secret := client_secret,
      paper_trade := paper_trade, isAsync := asyncio,
      _access_token := tkGet token "access_token",
      _refresh_token := some ((tkGet token "refresh_token").getD (.str "")),
      _access_token_expires_in := some ((tkGet token "access_token_expires_in").getD (.int 0)),
      _access_token_expires_at := some ((tkGet token "access_token_expires_at").getD (.int 0)),
      _token_read_func := some token_read_func,
      _token_update_func := some token_update_func }

/-- client_from_token_file: client_from_access_functions over the default
file-backed accessors at ts_state.json. -/
def client_from_token_file (client_key client_secret : String)
    (paper_trade asyncio : Bool) (fs : FsState) : Except PyErr Client :=
  client_from_access_functions client_key client_secret
    (load_token "ts_state.json") (update_token "ts_state.json")
    paper_trade asyncio fs

/-- easy_client: when the token file exists (os.path.isfile), delegate to
client_from_token_file (whose logging is not modelled and which performs no
other effects); otherwise run the manual flow. An exception raised on the
token-file path propagates — there is no fallback to the manual flow. -/
def easy_client (client_key client_secret redirect_uri autho_scope : String)
    (paper_trade asyncio : Bool) (fs : FsState) (env : ManualEnv) :
    List Effect × Outcome :=
  if (fs "ts_state.json").isSome then
    match client_from_token_file client_key client_secret paper_trade asyncio fs with
    | .ok c => ([], .ok c)
    | .error e => ([], .raised e)
  else
    client_from_manual_flow client_key client_secret redirect_uri autho_scope
      paper_trade asyncio env

/-- The empty file system: no file exists. -/
def fsEmpty : FsState := fun _ => none

/-- A file system holding exactly the token file, with the given contents. -/
def fsWith (content : List Char) : FsState :=
  fun p => if p = "ts_state.json" then some content else none

/-- The character stream of dumps after the opening brace and newline, for a
nonempty mapping (used to phrase the parser lemmas). -/
def membersChars : TokenMap → List Char
  | [] => []
  | kv :: r => serMember kv ++ dumpsRest r

/-- The first character, if any, is not a decimal digit (the shape of the
input following a serialized number). -/
def headNotDigit : List Char → Prop
  | [] => True
  | c :: _ => isDigit c = false

/-- Whether the try block of the callback parsing completes without an
exception: the state parameter is present, its stripped value equals the
generated state, and a code parameter is present. -/
def trySucceedsB (st : String) (qp : List (String × List String)) : Bool :=
  match qget qp "state" with
  | [] => false
  | sv :: _ => (st == pyStrip sv) && !(qget qp "code").isEmpty

/-! ## Helper lemmas: characters and hex digits -/

theorem char_eq_of_toNat_eq {c : Char} {n : Nat} (h : c.toNat = n) : c = Char.ofNat n := by
  rw [← h, Char.ofNat_toNat]

theorem char_toNat_ofNat {n : Nat} (h : Nat.isValidChar n) : (Char.ofNat n).toNat = n := by
  simp only [Char.ofNat, dif_pos h, Char.ofNatAux, Char.toNat]
  rfl

theorem valid_of_lt {n : Nat} (h : n < 55296) : Nat.isValidChar n := Or.inl h

theorem char_toNat_lt (c : Char) : c.toNat < 1114112 := by
  rcases c.valid with h | ⟨_, h2⟩
  · exact Nat.lt_trans h (by norm_num)
  · exact h2

theorem char_not_surrogate (c : Char) : c.toNat < 55296 ∨ 57343 < c.toNat := by
  rcases c.valid with h | ⟨h1, _⟩
  · exact Or.inl h
  · exact Or.inr h1

theorem hexVal_hexDig : ∀ d : Nat, d < 16 → hexVal (hexDig d) = some d := by
  decide

theorem escChar_ne_nil (c : Char) : escChar c ≠ [] := by
  unfold escChar
  dsimp only
  split_ifs <;> simp [hex4]

theorem length_le_flatten_escChar (s : List Char) :
    s.length ≤ ((s.map escChar).flatten).length := by
  induction s with
  | nil => simp
  | cons c r ih =>
    simp only [List.map_cons, List.flatten_cons, List.length_append, List.length_cons]
    have h1 : 1 ≤ (escChar c).length := by
      cases h : escChar c with
      | nil => exact absurd h (escChar_ne_nil c)
      | cons a b => simp
    omega

/-! ## Helper lemmas: string-literal scanning -/

theorem strTok_u (x3 x2 x1 x0 n : Nat) (t : List Char)
    (h3 : x3 < 16) (h2 : x2 < 16) (h1 : x1 < 16) (h0 : x0 < 16)
    (hn : x3 * 4096 + x2 * 256 + x1 * 16 + x0 = n)
    (hs : n < 55296 ∨ 57343 < n) :
    strTok ('\\' :: 'u' :: hexDig x3 :: hexDig x2 :: hexDig x1 :: hexDig x0 :: t) =
      some (some (Char.ofNat n), t) := by
  subst hn
  have hA : ¬ (55296 ≤ x3 * 4096 + x2 * 256 + x1 * 16 + x0 ∧
      x3 * 4096 + x2 * 256 + x1 * 16 + x0 < 56320) := by omega
  have hB : ¬ (56320 ≤ x3 * 4096 + x2 * 256 + x1 * 16 + x0 ∧
      x3 * 4096 + x2 * 256 + x1 * 16 + x0 < 57344) := by omega
  simp [strTok, show ('\\').toNat = 92 from rfl, show ('u').toNat = 117 from rfl,
    hexVal_hexDig x3 h3, hexVal_hexDig x2 h2, hexVal_hexDig x1 h1, hexVal_hexDig x0 h0,
    hA, hB]

theorem strTok_uu (x3 x2 x1 x0 y3 y2 y1 y0 n m : Nat) (t : List Char)
    (h3 : x3 < 16) (h2 : x2 < 16) (h1 : x1 < 16) (h0 : x0 < 16)
    (k3 : y3 < 16) (k2 : y2 < 16) (k1 : y1 < 16) (k0 : y0 < 16)
    (hn : x3 * 4096 + x2 * 256 + x1 * 16 + x0 = n)
    (hm : y3 * 4096 + y2 * 256 + y1 * 16 + y0 = m)
    (hn1 : 55296 ≤ n) (hn2 : n < 56320) (hm1 : 56320 ≤ m) (hm2 : m < 57344) :
    strTok ('\\' :: 'u' :: hexDig x3 :: hexDig x2 :: hexDig x1 :: hexDig x0 ::
            '\\' :: 'u' :: hexDig y3 :: hexDig y2 :: hexDig y1 :: hexDig y0 :: t) =
      some (some (Char.ofNat (65536 + (n - 55296) * 1024 + (m - 56320))), t) := by
  subst hn
  subst hm
  have hA : 55296 ≤ x3 * 4096 + x2 * 256 + x1 * 16 + x0 ∧
      x3 * 4096 + x2 * 256 + x1 * 16 + x0 < 56320 := by omega
  have hB : 56320 ≤ y3 * 4096 + y2 * 256 + y1 * 16 + y0 ∧
      y3 * 4096 + y2 * 256 + y1 * 16 + y0 < 57344 := by omega
  simp [strTok, show ('\\').toNat = 92 from rfl, show ('u').toNat = 117 from rfl,
    hexVal_hexDig x3 h3, hexVal_hexDig x2 h2, hexVal_hexDig x1 h1, hexVal_hexDig x0 h0,
    hexVal_hexDig y3 k3, hexVal_hexDig y2 k2, hexVal_hexDig y1 k1, hexVal_hexDig y0 k0,
    hA, hB]

theorem strTok_escChar (c : Char) (t : List Char) :
    strTok (escChar c ++ t) = some (some c, t) := by
  by_cases h34 : c.toNat = 34
  · rw [char_eq_of_toNat_eq h34]; rfl
  by_cases h92 : c.toNat = 92
  · rw [char_eq_of_toNat_eq h92]; rfl
  by_cases h8 : c.toNat = 8
  · rw [char_eq_of_toNat_eq h8]; rfl
  by_cases h12 : c.toNat = 12
  · rw [char_eq_of_toNat_eq h12]; rfl
  by_cases h10 : c.toNat = 10
  · rw [char_eq_of_toNat_eq h10]; rfl
  by_cases h13 : c.toNat = 13
  · rw [char_eq_of_toNat_eq h13]; rfl
  by_cases h9 : c.toNat = 9
  · rw [char_eq_of_toNat_eq h9]; rfl
  by_cases hr : c.toNat < 32 ∨ 126 < c.toNat
  · by_cases hb : c.toNat ≤ 65535
    · have hesc : escChar c = '\\' :: 'u' :: hex4 c.toNat := by
        simp [escChar, h34, h92, h8, h12, h10, h13, h9, hr, hb]
      rw [hesc]
      simp only [hex4, List.cons_append, List.nil_append]
      rw [strTok_u (c.toNat / 4096 % 16) (c.toNat / 256 % 16) (c.toNat / 16 % 16)
        (c.toNat % 16) c.toNat t (Nat.mod_lt _ (by norm_num)) (Nat.mod_lt _ (by norm_num))
        (Nat.mod_lt _ (by norm_num)) (Nat.mod_lt _ (by norm_num)) (by omega)
        (char_not_surrogate c)]
      simp
    · have hesc : escChar c =
          ('\\' :: 'u' :: hex4 (55296 + (c.toNat - 65536) / 1024)) ++
          ('\\' :: 'u' :: hex4 (56320 + (c.toNat - 65536) % 1024)) := by
        simp [escChar, h34, h92, h8, h12, h10, h13, h9, hr, hb]
      have hlt := char_toNat_lt c
      rw [hesc]
      simp only [hex4, List.cons_append, List.nil_append, List.append_assoc]
      rw [strTok_uu _ _ _ _ _ _ _ _ (55296 + (c.toNat - 65536) / 1024)
        (56320 + (c.toNat - 65536) % 1024) t
        (Nat.mod_lt _ (by norm_num)) (Nat.mod_lt _ (by norm_num))
        (Nat.mod_lt _ (by norm_num)) (Nat.mod_lt _ (by norm_num))
        (Nat.mod_lt _ (by norm_num)) (Nat.mod_lt _ (by norm_num))
        (Nat.mod_lt _ (by norm_num)) (Nat.mod_lt _ (by norm_num))
        (by omega) (by omega) (by omega) (by omega) (by omega) (by omega)]
      have hv : 65536 + (55296 + (c.toNat - 65536) / 1024 - 55296) * 1024 +
          (56320 + (c.toNat - 65536) % 1024 - 56320) = c.toNat := by omega
      rw [hv, Char.ofNat_toNat]
  · have hesc : escChar c = [c] := by
      simp [escChar, h34, h92, h8, h12, h10, h13, h9, hr]
    rw [hesc]
    simp [strTok, h34, h92]

theorem parseStrBody_escChar (c : Char) (t : List Char) (fuel : Nat) :
    parseStrBody (fuel + 1) (escChar c ++ t) =
      (parseStrBody fuel t).map (fun p => (c :: p.1, p.2)) := by
  simp [parseStrBody, strTok_escChar]

theorem parseStrBody_ser (s : List Char) :
    ∀ (fuel : Nat) (t : List Char), s.length < fuel →
      parseStrBody fuel ((s.map escChar).flatten ++ '"' :: t) = some (s, t) := by
  induction s with
  | nil =>
    intro fuel t h
    cases fuel with
    | zero => omega
    | succ f => simp [parseStrBody, strTok]
  | cons c s ih =>
    intro fuel t h
    cases fuel with
    | zero => omega
    | succ f =>
      simp only [List.map_cons, List.flatten_cons, List.append_assoc]
      rw [parseStrBody_escChar, ih f t (by simp at h; omega)]
      rfl

theorem parseJString_ser (s t : List Char) :
    parseJString (serStr s ++ t) = some (s, t) := by
  have hlen := length_le_flatten_escChar s
  simp only [serStr, List.cons_append, List.append_assoc]
  simp only [parseJString]
  rw [if_pos (show ('"').toNat = 34 from rfl)]
  exact parseStrBody_ser s _ t (by rw [List.length_append, List.length_cons]; omega)

/-! ## Helper lemmas: decimal digits -/

theorem natDigitsAux_acc : ∀ (n fuel : Nat) (acc : List Char), n < fuel →
    natDigitsAux fuel n acc = natDigits n ++ acc := by
  intro n
  induction n using Nat.strong_induction_on with
  | _ n ih =>
    intro fuel acc h
    match fuel, h with
    | f + 1, h =>
      by_cases h10 : n < 10
      · simp [natDigitsAux, natDigits, h10]
      · have hdiv : n / 10 < n := Nat.div_lt_self (by omega) (by norm_num)
        have l1 : natDigitsAux (f + 1) n acc =
            natDigitsAux f (n / 10) (Char.ofNat (48 + n % 10) :: acc) := by
          simp [natDigitsAux, h10]
        have l2 : natDigits n = natDigits (n / 10) ++ [Char.ofNat (48 + n % 10)] := by
          show natDigitsAux (n + 1) n [] = _
          have hstep : natDigitsAux (n + 1) n [] =
              natDigitsAux n (n / 10) [Char.ofNat (48 + n % 10)] := by
            simp [natDigitsAux, h10]
          rw [hstep, ih (n / 10) hdiv n _ (by omega)]
        rw [l1, ih (n / 10) hdiv f _ (by omega), l2]
        simp

theorem natDigits_unfold (n : Nat) :
    natDigits n = if n < 10 then [Char.ofNat (48 + n % 10)]
      else natDigits (n / 10) ++ [Char.ofNat (48 + n % 10)] := by
  by_cases h10 : n < 10
  · simp [natDigits, natDigitsAux, h10]
  · have hdiv : n / 10 < n := Nat.div_lt_self (by omega) (by norm_num)
    show natDigitsAux (n + 1) n [] = _
    have hstep : natDigitsAux (n + 1) n [] =
        natDigitsAux n (n / 10) [Char.ofNat (48 + n % 10)] := by
      simp [natDigitsAux, h10]
    rw [hstep, natDigitsAux_acc (n / 10) n _ (by omega)]
    simp [h10]

theorem char_digit_toNat (k : Nat) (h : k < 10) : (Char.ofNat (48 + k)).toNat = 48 + k :=
  char_toNat_ofNat (valid_of_lt (by omega))

theorem digitsVal_append_one (l : List Char) (c : Char) :
    digitsVal (l ++ [c]) = digitsVal l * 10 + (c.toNat - 48) := by
  simp [digitsVal, List.foldl_append]

theorem digitsVal_natDigits (n : Nat) : digitsVal (natDigits n) = n := by
  induction n using Nat.strong_induction_on with
  | _ n ih =>
    rw [natDigits_unfold]
    by_cases h10 : n < 10
    · simp [h10, digitsVal, char_digit_toNat (n % 10) (by omega)]
    · have hdiv : n / 10 < n := Nat.div_lt_self (by omega) (by norm_num)
      simp [h10, digitsVal_append_one, ih (n / 10) hdiv,
        char_digit_toNat (n % 10) (by omega)]
      omega

theorem isDigit_digitChar (n : Nat) : isDigit (Char.ofNat (48 + n % 10)) = true := by
  have h := char_digit_toNat (n % 10) (by omega)
  simp [isDigit, h]
  omega

theorem natDigits_all_digits (n : Nat) : (natDigits n).all isDigit = true := by
  induction n using Nat.strong_induction_on with
  | _ n ih =>
    rw [natDigits_unfold]
    by_cases h10 : n < 10
    · simp [h10, isDigit_digitChar]
    · have hdiv : n / 10 < n := Nat.div_lt_self (by omega) (by norm_num)
      simp [h10, List.all_append, isDigit_digitChar, ih (n / 10) hdiv]

theorem natDigits_ne_nil (n : Nat) : natDigits n ≠ [] := by
  rw [natDigits_unfold]
  by_cases h10 : n < 10 <;> simp [h10]

theorem isJsonWs_of_digit {c : Char} (h : isDigit c = true) : isJsonWs c = false := by
  simp [isDigit] at h
  simp [isJsonWs]
  omega

theorem takeDigits_append : ∀ (ds r : List Char), ds.all isDigit = true → headNotDigit r →
    takeDigits (ds ++ r) = (ds, r) := by
  intro ds
  induction ds with
  | nil =>
    intro r _ hr
    cases r with
    | nil => rfl
    | cons c r2 =>
      simp only [headNotDigit] at hr
      simp [takeDigits, hr]
  | cons d ds ih =>
    intro r hall hr
    simp only [List.all_cons, Bool.and_eq_true] at hall
    simp [takeDigits, hall.1, ih r hall.2 hr]

theorem parseNat_natDigits (n : Nat) (r : List Char) (hr : headNotDigit r) :
    parseNat (natDigits n ++ r) = some (n, r) := by
  rw [parseNat, takeDigits_append _ r (natDigits_all_digits n) hr]
  cases hnd : natDigits n with
  | nil => exact absurd hnd (natDigits_ne_nil n)
  | cons a l =>
    have : digitsVal (a :: l) = n := by rw [← hnd, digitsVal_natDigits]
    simp [this]

/-! ## Helper lemmas: values -/

theorem skipWs_not (c : Char) (l : List Char) (h : isJsonWs c = false) :
    skipWs (c :: l) = c :: l := by
  simp [skipWs, h]

theorem skipWs_ws (c : Char) (l : List Char) (h : isJsonWs c = true) :
    skipWs (c :: l) = skipWs l := by
  simp [skipWs, h]

theorem parseValue_ser_str (s : String) (r : List Char) :
    parseValue (serStr s.data ++ r) = some (.str s, r) := by
  have hlen := length_le_flatten_escChar s.data
  simp only [serStr, List.cons_append, List.append_assoc]
  simp only [parseValue]
  rw [skipWs_not _ _ (by rfl)]
  dsimp only
  rw [if_pos (show ('"').toNat = 34 from rfl)]
  simp only [List.nil_append]
  rw [parseStrBody_ser s.data _ r (by rw [List.length_append, List.length_cons]; omega)]
  rfl

theorem parseValue_natDigits (m : Nat) (r : List Char) (hr : headNotDigit r) :
    parseValue (natDigits m ++ r) = some (.int (m : Int), r) := by
  cases hnd : natDigits m with
  | nil => exact absurd hnd (natDigits_ne_nil m)
  | cons a l =>
    have hall := natDigits_all_digits m
    rw [hnd] at hall
    simp only [List.all_cons, Bool.and_eq_true] at hall
    have had : isDigit a = true := hall.1
    have haN : 48 ≤ a.toNat ∧ a.toNat ≤ 57 := by simpa [isDigit] using had
    simp only [List.cons_append]
    simp only [parseValue]
    rw [skipWs_not _ _ (isJsonWs_of_digit had)]
    dsimp only
    rw [if_neg (show ¬ a.toNat = 34 by omega)]
    rw [if_neg (show ¬ a.toNat = 45 by omega)]
    rw [if_pos had]
    have : (a :: (l ++ r)) = natDigits m ++ r := by rw [hnd]; simp
    rw [this, parseNat_natDigits m r hr]
    rfl

theorem parseValue_ser_int (n : Int) (r : List Char) (hr : headNotDigit r) :
    parseValue (intChars n ++ r) = some (.int n, r) := by
  by_cases hneg : n < 0
  · simp only [intChars, if_pos hneg, List.cons_append]
    simp only [parseValue]
    rw [skipWs_not _ _ (by rfl)]
    dsimp only
    rw [if_neg (show ¬ ('-').toNat = 34 by decide)]
    rw [if_pos (show ('-').toNat = 45 from rfl)]
    rw [parseNat_natDigits n.natAbs r hr]
    show some (JsonVal.int (-((n.natAbs : Nat) : Int)), r) = some (JsonVal.int n, r)
    rw [show -((n.natAbs : Nat) : Int) = n by omega]
  · simp only [intChars, if_neg hneg]
    rw [parseValue_natDigits n.natAbs r hr]
    rw [show ((n.natAbs : Nat) : Int) = n by omega]

theorem parseValue_ser (v : JsonVal) (r : List Char) (hr : headNotDigit r) :
    parseValue (serVal v ++ r) = some (v, r) := by
  cases v with
  | str s => exact parseValue_ser_str s r
  | int n => exact parseValue_ser_int n r hr

/-! ## Helper lemmas: objects -/

theorem parseValue_cons_ws (c : Char) (l : List Char) (h : isJsonWs c = true) :
    parseValue (c :: l) = parseValue l := by
  simp only [parseValue, skipWs_ws c l h]

theorem headNotDigit_dumpsRest (rest : TokenMap) : headNotDigit (dumpsRest rest) := by
  cases rest with
  | nil => simp only [dumpsRest, headNotDigit]; decide
  | cons kv r => simp only [dumpsRest, headNotDigit]; decide

theorem parseMembers_ser : ∀ (m : TokenMap), m ≠ [] → ∀ (fuel : Nat), m.length < fuel →
    parseMembers fuel ('\n' :: membersChars m) = some (m, []) := by
  intro m
  induction m with
  | nil => intro h; exact absurd rfl h
  | cons kv rest ih =>
    intro _ fuel hf
    match fuel, hf with
    | f + 1, hf =>
      obtain ⟨k, v⟩ := kv
      simp only [parseMembers, membersChars, serMember, List.cons_append, List.append_assoc]
      rw [skipWs_ws _ _ (by decide), skipWs_ws _ _ (by decide), skipWs_ws _ _ (by decide),
        skipWs_ws _ _ (by decide), skipWs_ws _ _ (by decide)]
      simp only [serStr, List.cons_append, List.append_assoc, List.nil_append]
      rw [skipWs_not _ _ (by decide)]
      rw [show ('"' :: ((List.map escChar k.data).flatten ++ '"' ::
        (':' :: ' ' :: (serVal v ++ dumpsRest rest)))) = serStr k.data ++
        (':' :: ' ' :: (serVal v ++ dumpsRest rest)) by simp [serStr]]
      rw [parseJString_ser]
      dsimp only
      rw [skipWs_not _ _ (by decide)]
      dsimp only
      rw [if_pos (show (':').toNat = 58 from rfl)]
      rw [parseValue_cons_ws _ _ (by decide)]
      rw [parseValue_ser v (dumpsRest rest) (headNotDigit_dumpsRest rest)]
      dsimp only
      cases rest with
      | nil =>
        simp only [dumpsRest]
        rw [skipWs_ws _ _ (by decide), skipWs_not _ _ (by decide)]
        dsimp only
        rw [if_neg (show ¬ ('}').toNat = 44 by decide),
          if_pos (show ('}').toNat = 125 from rfl)]
      | cons kv2 rest2 =>
        simp only [dumpsRest, List.cons_append, List.append_assoc]
        rw [skipWs_not _ _ (by decide)]
        dsimp only
        rw [if_pos (show (',').toNat = 44 from rfl)]
        have hne : (kv2 :: rest2 : TokenMap) ≠ [] := by simp
        have hlen : (kv2 :: rest2 : TokenMap).length < f := by
          simp only [List.length_cons] at hf ⊢
          omega
        have := ih hne f hlen
        simp only [membersChars, List.cons_append, List.append_assoc] at this
        rw [this]
        rfl

theorem dumpsRest_length (r2 : TokenMap) : r2.length + 1 ≤ (dumpsRest r2).length := by
  induction r2 with
  | nil => simp [dumpsRest]
  | cons kv2 rest2 ih2 =>
    simp only [dumpsRest, List.length_cons, List.length_append]
    have h2 : 1 ≤ (serMember kv2).length := by simp [serMember]
    omega

theorem loads_dumps (m : TokenMap) : loads (dumps m) = some m := by
  cases m with
  | nil => rfl
  | cons kv rest =>
    obtain ⟨k, v⟩ := kv
    show loads ('{' :: '\n' :: (serMember (k, v) ++ dumpsRest rest)) = _
    rw [show ('{' :: '\n' :: (serMember (k, v) ++ dumpsRest rest)) =
      '{' :: '\n' :: membersChars ((k, v) :: rest) by simp [membersChars]]
    simp only [loads]
    rw [skipWs_not _ _ (by decide)]
    dsimp only
    rw [if_pos (show ('{').toNat = 123 from rfl)]
    have hsk : skipWs ('\n' :: membersChars ((k, v) :: rest)) =
        serStr k.data ++ (':' :: ' ' :: (serVal v ++ dumpsRest rest)) := by
      simp only [membersChars, serMember, List.cons_append, List.append_assoc]
      rw [skipWs_ws _ _ (by decide), skipWs_ws _ _ (by decide), skipWs_ws _ _ (by decide),
        skipWs_ws _ _ (by decide), skipWs_ws _ _ (by decide)]
      simp only [serStr, List.cons_append, List.append_assoc]
      rw [skipWs_not _ _ (by decide)]
    rw [hsk]
    simp only [serStr, List.cons_append]
    rw [if_neg (show ¬ ('"').toNat = 125 by decide)]
    have hlen : ((k, v) :: rest : TokenMap).length <
        ('\n' :: membersChars ((k, v) :: rest)).length + 1 := by
      have h1 := dumpsRest_length rest
      simp only [membersChars, serMember, List.length_cons, List.length_append]
      omega
    rw [parseMembers_ser ((k, v) :: rest) (by simp) _ hlen]
    simp [skipWs]

/-! ## Claim theorems -/

/-- C9: Writing a token mapping with the store's write function
(update_token) and then reading it back with the store's read function
(load_token) over the same path yields exactly the original mapping — in
particular a mapping equal to the original in all four token fields. -/
theorem C9_token_store_roundtrip (token_path : String) (m : TokenMap) (fs : FsState) :
    load_token token_path (update_token token_path m fs) = .ok m := by
  simp [load_token, update_token, loads_dumps]

/-- C3 counterexample: with the token file present but holding unparsable
contents, easy_client does not invoke the interactive flow; it propagates
the JSONDecodeError (no effects at all, no client). The claim, as stated,
says the interactive flow would be invoked on such a read failure. -/
theorem C3_counterexample :
    easy_client "k" "s" "r" default_autho_scope true false (fsWith ['x'])
      ⟨"st", [], 200, []⟩ = ([], .raised .jsonDecodeError) := by
  rfl

/-- C3 amended: easy_client invokes the interactive flow only when the
token file does not exist; when the file exists but the store's read fails,
easy_client propagates the read failure and does not invoke the interactive
flow (its trace is empty). -/
theorem C3_read_failure_propagates
    (client_key client_secret redirect_uri autho_scope : String)
    (paper_trade asyncio : Bool) (fs : FsState) (env : ManualEnv)
    (content : List Char) (e : PyErr)
    (hfile : fs "ts_state.json" = some content)
    (hread : load_token "ts_state.json" fs = .error e) :
    easy_client client_key client_secret redirect_uri autho_scope paper_trade asyncio fs env =
      ([], .raised e) := by
  simp [easy_client, hfile, client_from_token_file, client_from_access_functions, hread]

/-- C3 witness for the amended theorem, at a concrete unreadable file. -/
theorem C3_read_failure_propagates_witness :
    easy_client "k" "s" "r" default_autho_scope true false (fsWith ['x'])
      ⟨"st", [("state", ["st"])], 200, []⟩ = ([], .raised .jsonDecodeError) :=
  C3_read_failure_propagates "k" "s" "r" default_autho_scope true false (fsWith ['x'])
    ⟨"st", [("state", ["st"])], 200, []⟩ ['x'] .jsonDecodeError rfl rfl

/-- C6: When the token file exists and the store's read succeeds with the
mapping m, easy_client performs no effects (in particular no network call
and no interactive flow) and returns a client built directly from the
stored mapping, carrying the file-backed accessors. -/
theorem C6_token_file_path
    (client_key client_secret redirect_uri autho_scope : String)
    (paper_trade asyncio : Bool) (fs : FsState) (env : ManualEnv) (m : TokenMap)
    (hread : load_token "ts_state.json" fs = .ok m) :
    easy_client client_key client_secret redirect_uri autho_scope paper_trade asyncio fs env =
      ([], .ok {
        client_id := client_key, client_secret := client_secret,
        paper_trade := paper_trade, isAsync := asyncio,
        _access_token := tkGet m "access_token",
        _refresh_token := some ((tkGet m "refresh_token").getD (.str "")),
        _access_token_expires_in := some ((tkGet m "access_token_expires_in").getD (.int 0)),
        _access_token_expires_at := some ((tkGet m "access_token_expires_at").getD (.int 0)),
        _token_read_func := some (load_token "ts_state.json"),
        _token_update_func := some (update_token "ts_state.json") }) := by
  have hfs : (fs "ts_state.json").isSome = true := by
    unfold load_token at hread
    cases hfs : fs "ts_state.json" with
    | none => rw [hfs] at hread; exact absurd hread (by simp)
    | some content => rfl
  simp [easy_client, hfs, client_from_token_file, client_from_access_functions, hread]

/-- C6 witness: a concrete file system holding a written token file. -/
theorem C6_token_file_path_witness :
    easy_client "k" "s" "r" default_autho_scope true false
      (update_token "ts_state.json" [("access_token", JsonVal.str "AT1")] fsEmpty)
      ⟨"st", [], 200, []⟩ =
      ([], .ok {
        client_id := "k", client_secret := "s",
        paper_trade := true, isAsync := false,
        _access_token := tkGet [("access_token", JsonVal.str "AT1")] "access_token",
        _refresh_token := some ((tkGet [("access_token", JsonVal.str "AT1")] "refresh_token").getD (.str "")),
        _access_token_expires_in :=
          some ((tkGet [("access_token", JsonVal.str "AT1")] "access_token_expires_in").getD (.int 0)),
        _access_token_expires_at :=
          some ((tkGet [("access_token", JsonVal.str "AT1")] "access_token_expires_at").getD (.int 0)),
        _token_read_func := some (load_token "ts_state.json"),
        _token_update_func := some (update_token "ts_state.json") }) :=
  C6_token_file_path "k" "s" "r" default_autho_scope true false
    (update_token "ts_state.json" [("access_token", JsonVal.str "AT1")] fsEmpty)
    ⟨"st", [], 200, []⟩ [("access_token", JsonVal.str "AT1")]
    (by simp [load_token, update_token, loads_dumps])

/-- C7 counterexample: the client returned by a successful manual flow
holds neither the token-store read accessor nor the write accessor — the
source passes no token functions to the constructor on that path. -/
theorem C7_counterexample :
    ((client_from_manual_flow "k" "s" "r" "sc" true false
        ⟨"ab", [("state", ["ab"]), ("code", ["c"])], 200, []⟩).2.client?).map
      (fun c => (c._token_read_func.isSome, c._token_update_func.isSome)) =
      some (false, false) := by
  rfl

/-- C7 amended: clients built by client_from_access_functions (and hence by
client_from_token_file and the token-file path of easy_client) hold the
read and write accessor functions; the client built by
client_from_manual_flow holds neither. -/
theorem C7_accessors :
    (∀ (client_key client_secret : String) (read : ReadFn) (write : WriteFn)
        (paper_trade asyncio : Bool) (fs : FsState) (c : Client),
      client_from_access_functions client_key client_secret read write
          paper_trade asyncio fs = .ok c →
      c._token_read_func = some read ∧ c._token_update_func = some write) ∧
    (∀ (client_key client_secret redirect_uri autho_scope : String)
        (paper_trade asyncio : Bool) (env : ManualEnv) (c : Client),
      (client_from_manual_flow client_key client_secret redirect_uri autho_scope
          paper_trade asyncio env).2 = .ok c →
      c._token_read_func = none ∧ c._token_update_func = none) := by
  constructor
  · intro ck cs read write p a fs c h
    unfold client_from_access_functions at h
    cases hr : read fs with
    | error e => rw [hr] at h; exact absurd h (by simp)
    | ok token =>
      rw [hr] at h
      cases h
      exact ⟨rfl, rfl⟩
  · intro ck cs ru sc p a env c h
    unfold client_from_manual_flow exceptBranch at h
    dsimp only at h
    split at h
    · -- state parameter absent
      split at h <;> exact absurd h (by simp)
    · -- state parameter present
      split at h
      · -- stripped state matches
        split at h
        · -- code parameter absent
          split at h <;> exact absurd h (by simp)
        · -- code parameter present
          split at h
          · -- status 400
            exact absurd h (by simp)
          · -- exchange accepted
            split at h
            · have h2 : Outcome.ok _ = Outcome.ok c := h
              cases h2
              exact ⟨rfl, rfl⟩
            · exact absurd h (by simp)
      · -- stripped state differs
        split at h <;> exact absurd h (by simp)

/-- C7 witness for the amended theorem, at a concrete read/write pair. -/
theorem C7_accessors_witness :
    ({ client_id := "k", client_secret := "s", paper_trade := true, isAsync := false,
       _access_token := none, _refresh_token := some (.str ""),
       _access_token_expires_in := some (.int 0), _access_token_expires_at := some (.int 0),
       _token_read_func := some (fun _ => .ok []),
       _token_update_func := some (fun _ fs => fs) } : Client)._token_read_func =
      some (fun _ => (.ok [] : Except PyErr TokenMap)) ∧
    ({ client_id := "k", client_secret := "s", paper_trade := true, isAsync := false,
       _access_token := none, _refresh_token := some (.str ""),
       _access_token_expires_in := some (.int 0), _access_token_expires_at := some (.int 0),
       _token_read_func := some (fun _ => .ok []),
       _token_update_func := some (fun _ fs => fs) } : Client)._token_update_func =
      some (fun _ fs => fs) :=
  C7_accessors.1 "k" "s" (fun _ => .ok []) (fun _ fs => fs) true false fsEmpty _ rfl

/-- C8: client_from_access_functions applies the source's defaulting rules
to the mapping returned by the read function: a missing refresh_token
yields the empty string, and a missing expires_in or expires_at field
yields 0 on the constructed client. -/
theorem C8_defaults (client_key client_secret : String) (read : ReadFn) (write : WriteFn)
    (paper_trade asyncio : Bool) (fs : FsState) (m : TokenMap) (c : Client)
    (hread : read fs = .ok m)
    (hok : client_from_access_functions client_key client_secret read write
      paper_trade asyncio fs = .ok c) :
    (tkGet m "refresh_token" = none → c._refresh_token = some (.str "")) ∧
    (tkGet m "access_token_expires_in" = none → c._access_token_expires_in = some (.int 0)) ∧
    (tkGet m "access_token_expires_at" = none → c._access_token_expires_at = some (.int 0)) := by
  unfold client_from_access_functions at hok
  rw [hread] at hok
  cases hok
  refine ⟨fun h => ?_, fun h => ?_, fun h => ?_⟩ <;> simp [h]

/-- C8 witness: the empty mapping, lacking all optional fields. -/
theorem C8_defaults_witness :
    (tkGet [] "refresh_token" = none →
      ({ client_id := "k", client_secret := "s", paper_trade := true, isAsync := false,
         _access_token := none, _refresh_token := some (.str ""),
         _access_token_expires_in := some (.int 0), _access_token_expires_at := some (.int 0),
         _token_read_func := some (fun _ => .ok []),
         _token_update_func := some (fun _ fs => fs) } : Client)._refresh_token =
        some (.str "")) ∧
    (tkGet [] "access_token_expires_in" = none →
      ({ client_id := "k", client_secret := "s", paper_trade := true, isAsync := false,
         _access_token := none, _refresh_token := some (.str ""),
         _access_token_expires_in := some (.int 0), _access_token_expires_at := some (.int 0),
         _token_read_func := some (fun _ => .ok []),
         _token_update_func := some (fun _ fs => fs) } : Client)._access_token_expires_in =
        some (.int 0)) ∧
    (tkGet [] "access_token_expires_at" = none →
      ({ client_id := "k", client_secret := "s", paper_trade := true, isAsync := false,
         _access_token := none, _refresh_token := some (.str ""),
         _access_token_expires_in := some (.int 0), _access_token_expires_at := some (.int 0),
         _token_read_func := some (fun _ => .ok []),
         _token_update_func := some (fun _ fs => fs) } : Client)._access_token_expires_at =
        some (.int 0)) :=
  C8_defaults "k" "s" (fun _ => .ok []) (fun _ fs => fs) true false fsEmpty [] _ rfl rfl

/-- C10: When the read function returns a mapping lacking the access_token
key, client_from_access_functions raises nothing: it returns a client whose
access-token field is the null value (None). -/
theorem C10_missing_access_token (client_key client_secret : String)
    (read : ReadFn) (write : WriteFn) (paper_trade asyncio : Bool)
    (fs : FsState) (m : TokenMap)
    (hread : read fs = .ok m)
    (hmiss : tkGet m "access_token" = none) :
    ((client_from_access_functions client_key client_secret read write
        paper_trade asyncio fs).toOption).map (fun c => c._access_token) = some none := by
  unfold client_from_access_functions
  rw [hread]
  simp [Except.toOption, hmiss]

/-- C10 witness: a mapping holding only a refresh token. -/
theorem C10_missing_access_token_witness :
    ((client_from_access_functions "k" "s"
        (fun _ => .ok [("refresh_token", JsonVal.str "R")]) (fun _ fs => fs)
        true false fsEmpty).toOption).map (fun c => c._access_token) = some none :=
  C10_missing_access_token "k" "s" (fun _ => .ok [("refresh_token", JsonVal.str "R")])
    (fun _ fs => fs) true false fsEmpty [("refresh_token", JsonVal.str "R")] rfl rfl

/-- C1 counterexample: with generated state "ab", a callback whose state
parameter value is "ab " — present and not equal to "ab" — passes the
source's stripped comparison: the flow issues the token POST and returns a
client instead of failing with a state mismatch. -/
theorem C1_counterexample :
    ((client_from_manual_flow "k" "s" "r" "sc" true false
        ⟨"ab", [("state", ["ab "]), ("code", ["c"])], 200, []⟩).1.any Effect.isPost = true) ∧
    ((client_from_manual_flow "k" "s" "r" "sc" true false
        ⟨"ab", [("state", ["ab "]), ("code", ["c"])], 200, []⟩).2.isOk = true) := by
  constructor <;> rfl

/-- C1 amended: for every callback URL whose state query parameter is
present but whose whitespace-stripped value differs from the generated
state, client_from_manual_flow prints the state-mismatch (possible
cross-site request forgery) message and aborts by exiting, without issuing
any POST to the token endpoint. (The source compares the stripped
parameter, so a value differing from the state only by surrounding
whitespace is accepted — the counterexample.) -/
theorem C1_state_mismatch
    (client_key client_secret redirect_uri autho_scope : String)
    (paper_trade asyncio : Bool) (env : ManualEnv)
    (hs : (qget env.query_params "state").isEmpty = false)
    (hmm : env.state ≠ pyStrip ((qget env.query_params "state").headD "")) :
    ((client_from_manual_flow client_key client_secret redirect_uri autho_scope
        paper_trade asyncio env).2 = .exited) ∧
    ((client_from_manual_flow client_key client_secret redirect_uri autho_scope
        paper_trade asyncio env).1.any Effect.isPost = false) ∧
    (Effect.print msgStateMismatch ∈
      (client_from_manual_flow client_key client_secret redirect_uri autho_scope
        paper_trade asyncio env).1) := by
  simp only [client_from_manual_flow, exceptBranch]
  rw [if_neg (by simp [hs]), if_neg hmm]
  split <;> exact ⟨rfl, by simp [Effect.isPost], by simp⟩

/-- C1 witness for the amended theorem. -/
theorem C1_state_mismatch_witness :
    ((client_from_manual_flow "k" "s" "r" "sc" true false
        ⟨"ab", [("state", ["xy"])], 200, []⟩).2 = .exited) ∧
    ((client_from_manual_flow "k" "s" "r" "sc" true false
        ⟨"ab", [("state", ["xy"])], 200, []⟩).1.any Effect.isPost = false) ∧
    (Effect.print msgStateMismatch ∈
      (client_from_manual_flow "k" "s" "r" "sc" true false
        ⟨"ab", [("state", ["xy"])], 200, []⟩).1) :=
  C1_state_mismatch "k" "s" "r" "sc" true false ⟨"ab", [("state", ["xy"])], 200, []⟩
    rfl (by decide)

/-- C2 counterexample: a token-endpoint response with status 401 — not in
the 2xx range — does not make client_from_manual_flow fail: the source only
tests for status 400, so a client is constructed and returned. -/
theorem C2_counterexample :
    (client_from_manual_flow "k" "s" "r" "sc" true false
        ⟨"ab", [("state", ["ab"]), ("code", ["c"])], 401, []⟩).2.isOk = true := by
  rfl

/-- C2 amended: the authorization-code exchange is rejected exactly when
the token-endpoint response has status 400 (BAD_REQUEST): then
client_from_manual_flow raises ValueError carrying the status, constructs
no client, and writes no token; any other status — including other non-2xx
statuses — proceeds to build a client from the response body. -/
theorem C2_bad_request
    (client_key client_secret redirect_uri autho_scope : String)
    (paper_trade asyncio : Bool) (env : ManualEnv)
    (hs : (qget env.query_params "state").isEmpty = false)
    (hm : env.state = pyStrip ((qget env.query_params "state").headD ""))
    (hc : (qget env.query_params "code").isEmpty = false)
    (h400 : env.resp_status = 400) :
    ((client_from_manual_flow client_key client_secret redirect_uri autho_scope
        paper_trade asyncio env).2 =
      .raised (.valueError ("Failed to authorize token. " ++ toString env.resp_status))) ∧
    ((client_from_manual_flow client_key client_secret redirect_uri autho_scope
        paper_trade asyncio env).1.any Effect.isWrite = false) := by
  simp only [client_from_manual_flow]
  rw [if_neg (by simp [hs]), if_pos hm, if_neg (by simp [hc]), if_pos h400]
  exact ⟨rfl, by simp [Effect.isWrite]⟩

/-- C2 witness for the amended theorem. -/
theorem C2_bad_request_witness :
    ((client_from_manual_flow "k" "s" "r" "sc" true false
        ⟨"ab", [("state", ["ab"]), ("code", ["c"])], 400, []⟩).2 =
      .raised (.valueError ("Failed to authorize token. " ++ toString 400))) ∧
    ((client_from_manual_flow "k" "s" "r" "sc" true false
        ⟨"ab", [("state", ["ab"]), ("code", ["c"])], 400, []⟩).1.any Effect.isWrite = false) :=
  C2_bad_request "k" "s" "r" "sc" true false
    ⟨"ab", [("state", ["ab"]), ("code", ["c"])], 400, []⟩ rfl (by decide) rfl rfl

/-- C4 counterexample: a callback URL carrying error_description together
with a matching state and a code does not fail: error_description is only
consulted in the except branch, so the flow prints Success, issues the
token POST and returns a client. -/
theorem C4_counterexample :
    ((client_from_manual_flow "k" "s" "r" "sc" true false
        ⟨"ab", [("state", ["ab"]), ("code", ["c"]), ("error_description", ["denied"])],
          200, []⟩).1.any Effect.isPost = true) ∧
    ((client_from_manual_flow "k" "s" "r" "sc" true false
        ⟨"ab", [("state", ["ab"]), ("code", ["c"]), ("error_description", ["denied"])],
          200, []⟩).2.isOk = true) := by
  constructor <;> rfl

/-- C4 amended: when the callback's state/code extraction fails (state
absent, stripped state mismatched, or code absent) and the query string
contains an error_description parameter, client_from_manual_flow fails by
exiting, prints the authorization-problem message whose detail is the
whitespace-stripped first error_description value, and performs no token
exchange. When state and code validate, error_description is ignored and
the exchange proceeds (the counterexample). -/
theorem C4_denied
    (client_key client_secret redirect_uri autho_scope : String)
    (paper_trade asyncio : Bool) (env : ManualEnv)
    (hd : (qget env.query_params "error_description").isEmpty = false)
    (hfail : trySucceedsB env.state env.query_params = false) :
    ((client_from_manual_flow client_key client_secret redirect_uri autho_scope
        paper_trade asyncio env).2 = .exited) ∧
    ((client_from_manual_flow client_key client_secret redirect_uri autho_scope
        paper_trade asyncio env).1.any Effect.isPost = false) ∧
    (Effect.print (msgDeniedPre ++
        pyStrip ((qget env.query_params "error_description").headD "")) ∈
      (client_from_manual_flow client_key client_secret redirect_uri autho_scope
        paper_trade asyncio env).1) := by
  unfold trySucceedsB at hfail
  simp only [client_from_manual_flow, exceptBranch]
  cases hq : qget env.query_params "state" with
  | nil =>
    rw [if_pos (by simp [hq]), if_neg (by simp [hd])]
    exact ⟨rfl, by simp [Effect.isPost], by simp⟩
  | cons a t =>
    rw [hq] at hfail
    simp only [Bool.and_eq_false_iff] at hfail
    rw [if_neg (by simp)]
    rcases hfail with hfail | hfail
    · have hne : env.state ≠ pyStrip ((a :: t).headD "") := by
        simpa using hfail
      rw [if_neg hne, if_neg (by simp [hd])]
      exact ⟨rfl, by simp [Effect.isPost], by simp⟩
    · by_cases hm : env.state = pyStrip ((a :: t).headD "")
      · rw [if_pos hm]
        have hcode : (qget env.query_params "code").isEmpty = true := by
          simpa using hfail
        rw [if_pos hcode, if_neg (by simp [hd])]
        exact ⟨rfl, by simp [Effect.isPost], by simp⟩
      · rw [if_neg hm, if_neg (by simp [hd])]
        exact ⟨rfl, by simp [Effect.isPost], by simp⟩

/-- C4 witness for the amended theorem (end-to-end scenario C: the callback
carries only error_description=access_denied). -/
theorem C4_denied_witness :
    ((client_from_manual_flow "k" "s" "r" "sc" true false
        ⟨"ab", [("error_description", ["access_denied"])], 200, []⟩).2 = .exited) ∧
    ((client_from_manual_flow "k" "s" "r" "sc" true false
        ⟨"ab", [("error_description", ["access_denied"])], 200, []⟩).1.any
        Effect.isPost = false) ∧
    (Effect.print (msgDeniedPre ++
        pyStrip ((qget [("error_description", ["access_denied"])]
          "error_description").headD "")) ∈
      (client_from_manual_flow "k" "s" "r" "sc" true false
        ⟨"ab", [("error_description", ["access_denied"])], 200, []⟩).1) :=
  C4_denied "k" "s" "r" "sc" true false
    ⟨"ab", [("error_description", ["access_denied"])], 200, []⟩ rfl rfl

/-- C5: On the easy_client path where no token file exists and the
authorization-code exchange succeeds (2xx status), the effect trace is
exactly the URL print, the browser open, the Success print, the one token
POST, and then exactly one write of the endpoint's response body to the
token store — the write occurring before the call returns its client. -/
theorem C5_write_once_before_return
    (client_key client_secret redirect_uri autho_scope : String)
    (paper_trade asyncio : Bool) (fs : FsState) (env : ManualEnv)
    (hfile : fs "ts_state.json" = none)
    (hs : (qget env.query_params "state").isEmpty = false)
    (hm : env.state = pyStrip ((qget env.query_params "state").headD ""))
    (hc : (qget env.query_params "code").isEmpty = false)
    (h2a : 200 ≤ env.resp_status) (h2b : env.resp_status < 300) :
    (easy_client client_key client_secret redirect_uri autho_scope
        paper_trade asyncio fs env).1 =
      [.print msgInstructions,
       .print (authUrl client_key redirect_uri env.state autho_scope),
       .openBrowser (authUrl client_key redirect_uri env.state autho_scope),
       .print "Success",
       .postToken (exchangePayload client_key client_secret
         (pyStrip ((qget env.query_params "code").headD "")) redirect_uri),
       .writeToken "ts_state.json" env.resp_body] := by
  simp only [easy_client, hfile, Option.isSome_none, Bool.false_eq_true, if_false]
  simp only [client_from_manual_flow]
  rw [if_neg (by simp [hs]), if_pos hm, if_neg (by simp [hc]),
    if_neg (show ¬ env.resp_status = 400 by omega)]
  cases pyToInt ((tkGet env.resp_body "access_token_expires_in").getD (.int 0)) with
  | none => rfl
  | some ein =>
    cases pyToInt ((tkGet env.resp_body "access_token_expires_at").getD (.int 0)) with
    | none => rfl
    | some eat => rfl

/-- C5 witness: a concrete run with an empty file system and a 200
response. -/
theorem C5_write_once_before_return_witness :
    (easy_client "k" "s" "r" "sc" true false fsEmpty
        ⟨"ab", [("state", ["ab"]), ("code", ["c"])], 200,
          [("access_token", JsonVal.str "AT1")]⟩).1 =
      [.print msgInstructions,
       .print (authUrl "k" "r" "ab" "sc"),
       .openBrowser (authUrl "k" "r" "ab" "sc"),
       .print "Success",
       .postToken (exchangePayload "k" "s"
         (pyStrip ((qget [("state", ["ab"]), ("code", ["c"])] "code").headD "")) "r"),
       .writeToken "ts_state.json" [("access_token", JsonVal.str "AT1")]] :=
  C5_write_once_before_return "k" "s" "r" "sc" true false fsEmpty
    ⟨"ab", [("state", ["ab"]), ("code", ["c"])], 200, [("access_token", JsonVal.str "AT1")]⟩
    rfl rfl (by decide) rfl (by norm_num) (by norm_num)

end TS
